import Mathlib

/-!
Verification of the `Guard` precondition-validation library (src/guard.py).

The library is a flat set of pure check functions over dynamically typed
Python values.  We shallowly embed the Python value universe the checks
discriminate on as the inductive type `PyVal`, Python runtime exceptions as
the tagged type `PyError` (ValueError = InvalidArgument, TypeError =
TypeMismatch, FileNotFoundError = NotFound in the spec's taxonomy), and the
filesystem, queried read-only by two checks, as a function from path strings
to an optional entry kind.  Each guard method becomes a Lean function
returning `Except PyError PyVal`, translated clause by clause from the
Python source; the error message strings reproduce the source's f-strings
(string concatenation in place of interpolation, `\x27` for the ASCII
apostrophe).
-/

/-- The universe of Python values the guards discriminate on.  Covers the
value categories the checks and the spec mention: `None`, `int`, `float`
(payload modelled as a rational number), `str`, `bytes` (payload modelled as
the decoded text of the byte string), `list`, `tuple`, `set`, `dict`
(entries as an association list), and an `os.PathLike` object carrying the
path its `__fspath__` returns (concretely, a `pathlib.PosixPath`). -/
inductive PyVal where
  | none
  | int (n : Int)
  | float (q : Rat)
  | str (s : String)
  | bytes (b : String)
  | list (xs : List PyVal)
  | tuple (xs : List PyVal)
  | set (xs : List PyVal)
  | dict (entries : List (PyVal × PyVal))
  | pathObj (p : String)
deriving Repr

/-- The `type(v).__name__` string for the modelled values (the `os.PathLike` object is
modelled as a `pathlib.PosixPath` instance). -/
def typeName : PyVal → String
  | .none => "NoneType"
  | .int _ => "int"
  | .float _ => "float"
  | .str _ => "str"
  | .bytes _ => "bytes"
  | .list _ => "list"
  | .tuple _ => "tuple"
  | .set _ => "set"
  | .dict _ => "dict"
  | .pathObj _ => "PosixPath"

/-- The type descriptors a caller can pass to `against_wrong_type`, and the
classes named in the source's `isinstance` checks. -/
inductive PyType where
  | noneType
  | intT
  | floatT
  | strT
  | bytesT
  | listT
  | tupleT
  | setT
  | dictT
  | pathLikeT
deriving DecidableEq, Repr

/-- The `T.__name__` string for the modelled type descriptors. -/
def PyType.typename : PyType → String
  | .noneType => "NoneType"
  | .intT => "int"
  | .floatT => "float"
  | .strT => "str"
  | .bytesT => "bytes"
  | .listT => "list"
  | .tupleT => "tuple"
  | .setT => "set"
  | .dictT => "dict"
  | .pathLikeT => "PathLike"

/-- Python `isinstance(v, T)` for the modelled values and classes.  Note
that `str` is not an instance of `os.PathLike` (only the path object,
whose class implements `__fspath__`, is). -/
def isinstance : PyVal → PyType → Bool
  | .none, .noneType => true
  | .int _, .intT => true
  | .float _, .floatT => true
  | .str _, .strT => true
  | .bytes _, .bytesT => true
  | .list _, .listT => true
  | .tuple _, .tupleT => true
  | .set _, .setT => true
  | .dict _, .dictT => true
  | .pathObj _, .pathLikeT => true
  | _, _ => false

/-- Python `isinstance(v, collections.abc.Iterable)`: of the modelled
values, `str`, `bytes`, `list`, `tuple`, `set` and `dict` are iterable;
`None`, numbers and path objects are not. -/
def isIterable : PyVal → Bool
  | .str _ => true
  | .bytes _ => true
  | .list _ => true
  | .tuple _ => true
  | .set _ => true
  | .dict _ => true
  | _ => false

/-- Python truthiness `bool(v)`, as tested by `if not argument`: `None`,
numeric zero, and empty strings/bytes/containers are falsy; everything else
modelled is truthy. -/
def pyTruthy : PyVal → Bool
  | .none => false
  | .int n => n != 0
  | .float q => q != 0
  | .str s => s != ""
  | .bytes b => b != ""
  | .list xs => !xs.isEmpty
  | .tuple xs => !xs.isEmpty
  | .set xs => !xs.isEmpty
  | .dict entries => !entries.isEmpty
  | .pathObj _ => true

/-- Python `v == 0`: true exactly for numeric zero in any numeric
representation (`0`, `0.0`); Python's `==` between a number and any
non-numeric modelled value, or between `0` and a non-zero number, is
`False` (cross-type equality falls back to identity). -/
def pyEqZero : PyVal → Bool
  | .int n => n == 0
  | .float q => q == 0
  | _ => false

/-- Python `v == ""`: true exactly for the empty `str`.  No other modelled
value compares equal to `""` (in particular `b""` does not: in Python 3,
`bytes` never equals `str`). -/
def pyEqEmptyStr : PyVal → Bool
  | .str s => s == ""
  | _ => false

/-- Python `v < 0`: defined on numbers; on every other modelled value the
comparison with the `int` literal `0` raises
`TypeError: unsupported operand ...` (modelled with CPython's message). -/
def pyLtZero : PyVal → Except String Bool
  | .int n => .ok (decide (n < 0))
  | .float q => .ok (decide (q < 0))
  | v =>
    .error ("\x27<\x27 not supported between instances of \x27" ++
      typeName v ++ "\x27 and \x27int\x27")

/-- Python `str(v)` for the values that can reach the guards' error
messages: text, bytes (rendered `b\x27...\x27` as CPython does), path
objects (a `PosixPath` renders as its path), `None` and numbers.  Container
rendering is modelled only schematically; no guard interpolates a container
into a message on the paths the source can take. -/
def pyStr : PyVal → String
  | .none => "None"
  | .int n => toString n
  | .float q => toString q
  | .str s => s
  | .bytes b => "b\x27" ++ b ++ "\x27"
  | .list _ => "[...]"
  | .tuple _ => "(...)"
  | .set _ => "\x7b...\x7d"
  | .dict _ => "\x7b...\x7d"
  | .pathObj p => p

/-- Python's exception values as raised by the guards, tagged by class.
In the spec's failure taxonomy: `valueError` = InvalidArgument,
`typeError` = TypeMismatch, `fileNotFoundError` = NotFound. -/
inductive PyError where
  | valueError (msg : String)
  | typeError (msg : String)
  | fileNotFoundError (msg : String)
deriving DecidableEq, Repr

/-- The message carried by an exception. -/
def PyError.msg : PyError → String
  | .valueError m => m
  | .typeError m => m
  | .fileNotFoundError m => m

/-- The exception class name of a guard outcome, `Option.none` on success. -/
def errorKind : Except PyError PyVal → Option String
  | .ok _ => Option.none
  | .error (.valueError _) => some "ValueError"
  | .error (.typeError _) => some "TypeError"
  | .error (.fileNotFoundError _) => some "FileNotFoundError"

/-- Whether a guard call succeeded. -/
def succeeded : Except PyError PyVal → Bool
  | .ok _ => true
  | .error _ => false

/-- What, if anything, the filesystem holds at a path. -/
inductive FSEntry where
  | file
  | dir
deriving DecidableEq, Repr

/-- A snapshot of the filesystem: each path string either resolves to a
regular file, to a directory, or to nothing. -/
def FileSystem : Type := String → Option FSEntry

/-- The `os.fspath`-style view: the path string a path-like value denotes
(`str` itself, `bytes` via its decoded text, a path object via
`__fspath__`); `Option.none` for values that are not path-like. -/
def fspath : PyVal → Option String
  | .str s => some s
  | .bytes b => some b
  | .pathObj p => some p
  | _ => Option.none

/-- The source's path-type test `isinstance(path, (str, bytes, os.PathLike))`. -/
def isPathType (v : PyVal) : Bool :=
  isinstance v .strT || isinstance v .bytesT || isinstance v .pathLikeT

/-- Model of Python `os.path.exists` (genericpath.exists: `os.stat` in a
try/except catching `OSError` and `ValueError`, returning `False` on
either).  A path-like argument is answered from the filesystem snapshot (an
entry of any kind counts).  A non-path argument makes `os.stat` raise
`TypeError`, which propagates - except an `int`, which `os.stat` accepts as
a file descriptor; we model the state in which no such descriptor is open,
so `os.stat` raises `OSError` and `exists` returns `False`. -/
def os_path_exists (fs : FileSystem) : PyVal → Except PyError Bool
  | v =>
    match fspath v with
    | some p => .ok (fs p).isSome
    | Option.none =>
      match v with
      | .int _ => .ok false
      | w =>
        .error (.typeError
          ("stat: path should be string, bytes, os.PathLike or integer, not "
            ++ typeName w))

/-- Model of Python `os.path.isdir` (genericpath.isdir), with the same stat
semantics as `os_path_exists`: true exactly when the path-like argument
resolves to a directory; `False` for an `int` with no open descriptor;
`TypeError` propagates for other non-path arguments. -/
def os_path_isdir (fs : FileSystem) : PyVal → Except PyError Bool
  | v =>
    match fspath v with
    | some p => .ok (fs p == some .dir)
    | Option.none =>
      match v with
      | .int _ => .ok false
      | w =>
        .error (.typeError
          ("stat: path should be string, bytes, os.PathLike or integer, not "
            ++ typeName w))

/-- Embedding of `Guard.against_none` (guard.py:52-75).  The Python default for
`argument_name` is `"value"`. -/
def against_none (argument : PyVal) (argument_name : String) :
    Except PyError PyVal :=
  match argument with
  | .none =>
    .error (.valueError
      ("Argument \x27" ++ argument_name ++ "\x27 must not be None."))
  | _ => .ok argument

/-- Embedding of `Guard.against_negative` (guard.py:77-100): `if argument < 0: raise
ValueError(...)`.  A `TypeError` raised by the comparison itself (a
non-numeric argument) propagates uncaught. -/
def against_negative (argument : PyVal) (argument_name : String) :
    Except PyError PyVal :=
  match pyLtZero argument with
  | .error m => .error (.typeError m)
  | .ok true =>
    .error (.valueError
      ("Argument \x27" ++ argument_name ++ "\x27 must be positive"))
  | .ok false => .ok argument

/-- Embedding of `Guard.against_empty_string` (guard.py:102-124): `if argument == "":
raise ValueError(...)`. -/
def against_empty_string (argument : PyVal) (argument_name : String) :
    Except PyError PyVal :=
  if pyEqEmptyStr argument then
    .error (.valueError
      ("Argument \x27" ++ argument_name ++ "\x27 must not be \x27\x27"))
  else .ok argument

/-- Embedding of `Guard.against_zero` (guard.py:126-148): `if argument == 0: raise
ValueError(...)`. -/
def against_zero (argument : PyVal) (argument_name : String) :
    Except PyError PyVal :=
  if pyEqZero argument then
    .error (.valueError
      ("Argument \x27" ++ argument_name ++ "\x27 must not be zero."))
  else .ok argument

/-- Embedding of `Guard.against_empty_collection` (guard.py:150-172): `if not argument:
raise ValueError(...)`. -/
def against_empty_collection (argument : PyVal) (argument_name : String) :
    Except PyError PyVal :=
  if !pyTruthy argument then
    .error (.valueError
      ("Argument \x27" ++ argument_name ++ "\x27 must not be empty."))
  else .ok argument

/-- Embedding of `Guard.against_wrong_type` (guard.py:174-197): `if not
isinstance(argument, expected_type): raise TypeError(...)` with both type
names in the message. -/
def against_wrong_type (argument : PyVal) (expected_type : PyType)
    (argument_name : String) : Except PyError PyVal :=
  if !isinstance argument expected_type then
    .error (.typeError
      ("Argument \x27" ++ argument_name ++ "\x27 must be of type " ++
        expected_type.typename ++ ". Got " ++ typeName argument ++ "."))
  else .ok argument

/-- Embedding of `Guard.against_file_not_found` (guard.py:199-228): `None` check, then
`isinstance(path, (str, bytes, os.PathLike))`, then `os.path.exists(path)`;
the `FileNotFoundError` message interpolates the path, not the argument
name.  The Python default for `argument_name` is `"file_path"`. -/
def against_file_not_found (fs : FileSystem) (path : PyVal)
    (argument_name : String) : Except PyError PyVal :=
  match path with
  | .none =>
    .error (.valueError
      ("Argument \x27" ++ argument_name ++ "\x27 must not be None."))
  | _ =>
    if !isPathType path then
      .error (.typeError
        ("Argument \x27" ++ argument_name ++
          "\x27 must be a valid file path (str, bytes, or os.PathLike)."))
    else
      match os_path_exists fs path with
      | .error e => .error e
      | .ok true => .ok path
      | .ok false =>
        .error (.fileNotFoundError
          ("File not found: \x27" ++ pyStr path ++ "\x27"))

/-- Embedding of `Guard.against_directory_not_found` (guard.py:230-253): a single
`os.path.isdir(path)` test with no preceding `None` or type check; the
`FileNotFoundError` message interpolates the path and never uses
`argument_name`.  The Python default for `argument_name` is
`"directory"`. -/
def against_directory_not_found (fs : FileSystem) (path : PyVal)
    (argument_name : String) : Except PyError PyVal :=
  match os_path_isdir fs path with
  | .error e => .error e
  | .ok true => .ok path
  | .ok false =>
    .error (.fileNotFoundError
      ("Directory not found: \x27" ++ pyStr path ++ "\x27"))

/-- Embedding of `Guard.against_not_iterable` (guard.py:255-277): `if not
isinstance(argument, Iterable) or isinstance(argument, (str, bytes)):
raise TypeError(...)`. -/
def against_not_iterable (argument : PyVal) (argument_name : String) :
    Except PyError PyVal :=
  if !isIterable argument || isinstance argument .strT ||
      isinstance argument .bytesT then
    .error (.typeError
      ("Argument \x27" ++ argument_name ++
        "\x27 must be an iterable (not str/bytes)."))
  else .ok argument

/-- Whether a modelled value is numeric (an instance of `numbers.Number`:
`int` or `float` here). -/
def isNumeric : PyVal → Bool
  | .int _ => true
  | .float _ => true
  | _ => false

/-- Whether `needle` matches at the head of `msg` (character lists). -/
def chmatch : List Char → List Char → Bool
  | [], _ => true
  | _ :: _, [] => false
  | a :: as, b :: bs => a == b && chmatch as bs

/-- Whether `needle` occurs anywhere inside `msg` (character lists). -/
def chfind : List Char → List Char → Bool
  | needle, [] => chmatch needle []
  | needle, c :: tl => chmatch needle (c :: tl) || chfind needle tl

/-- Whether the string `needle` occurs as a contiguous substring of `msg`;
used to state that an error message names an argument or a type. -/
def strHasSub (needle msg : String) : Bool :=
  chfind needle.data msg.data

/-- A filesystem snapshot with no entries at all. -/
def emptyFS : FileSystem := fun _ => Option.none

/-- A filesystem snapshot holding one directory (`/tmp/adir`) and one
regular file (`/tmp/afile`). -/
def demoFS : FileSystem := fun p =>
  if p = "/tmp/adir" then some FSEntry.dir
  else if p = "/tmp/afile" then some FSEntry.file
  else Option.none

theorem chmatch_append_self (n m : List Char) : chmatch n (n ++ m) = true := by
  induction n with
  | nil => rfl
  | cons a as ih => simp [chmatch, ih]

theorem chfind_head (n m : List Char) (h : chmatch n m = true) :
    chfind n m = true := by
  cases m with
  | nil => simpa [chfind] using h
  | cons c tl => simp [chfind, h]

theorem chfind_append (n a m : List Char) (h : chfind n m = true) :
    chfind n (a ++ m) = true := by
  induction a with
  | nil => simpa using h
  | cons c cs ih => simp [chfind, ih]

theorem chfind_self_append (n m : List Char) : chfind n (n ++ m) = true :=
  chfind_head n (n ++ m) (chmatch_append_self n m)

theorem against_none_ok_id (v : PyVal) (nm : String) (r : PyVal)
    (h : against_none v nm = .ok r) : r = v := by
  unfold against_none at h
  split at h
  · exact Except.noConfusion h
  · injection h with h; exact h.symm

theorem against_negative_ok_id (v : PyVal) (nm : String) (r : PyVal)
    (h : against_negative v nm = .ok r) : r = v := by
  unfold against_negative at h
  split at h
  · exact Except.noConfusion h
  · exact Except.noConfusion h
  · injection h with h; exact h.symm

theorem against_empty_string_ok_id (v : PyVal) (nm : String) (r : PyVal)
    (h : against_empty_string v nm = .ok r) : r = v := by
  unfold against_empty_string at h
  split at h
  · exact Except.noConfusion h
  · injection h with h; exact h.symm

theorem against_zero_ok_id (v : PyVal) (nm : String) (r : PyVal)
    (h : against_zero v nm = .ok r) : r = v := by
  unfold against_zero at h
  split at h
  · exact Except.noConfusion h
  · injection h with h; exact h.symm

theorem against_empty_collection_ok_id (v : PyVal) (nm : String) (r : PyVal)
    (h : against_empty_collection v nm = .ok r) : r = v := by
  unfold against_empty_collection at h
  split at h
  · exact Except.noConfusion h
  · injection h with h; exact h.symm

theorem against_wrong_type_ok_id (v : PyVal) (T : PyType) (nm : String) (r : PyVal)
    (h : against_wrong_type v T nm = .ok r) : r = v := by
  unfold against_wrong_type at h
  split at h
  · exact Except.noConfusion h
  · injection h with h; exact h.symm

theorem against_file_not_found_ok_id (fs : FileSystem) (v : PyVal) (nm : String)
    (r : PyVal) (h : against_file_not_found fs v nm = .ok r) : r = v := by
  unfold against_file_not_found at h
  split at h
  · exact Except.noConfusion h
  · split at h
    · exact Except.noConfusion h
    · split at h
      · exact Except.noConfusion h
      · injection h with h; exact h.symm
      · exact Except.noConfusion h

theorem against_directory_not_found_ok_id (fs : FileSystem) (v : PyVal) (nm : String)
    (r : PyVal) (h : against_directory_not_found fs v nm = .ok r) : r = v := by
  unfold against_directory_not_found at h
  split at h
  · exact Except.noConfusion h
  · injection h with h; exact h.symm
  · exact Except.noConfusion h

theorem against_not_iterable_ok_id (v : PyVal) (nm : String) (r : PyVal)
    (h : against_not_iterable v nm = .ok r) : r = v := by
  unfold against_not_iterable at h
  split at h
  · exact Except.noConfusion h
  · injection h with h; exact h.symm

theorem against_none_name_inv (v : PyVal) (n1 n2 : String) :
    succeeded (against_none v n1) = succeeded (against_none v n2) := by
  cases v <;> rfl

theorem against_negative_name_inv (v : PyVal) (n1 n2 : String) :
    succeeded (against_negative v n1) = succeeded (against_negative v n2) := by
  cases h : pyLtZero v with
  | error e => simp [against_negative, h]
  | ok b => cases b <;> simp [against_negative, h, succeeded]

theorem against_empty_string_name_inv (v : PyVal) (n1 n2 : String) :
    succeeded (against_empty_string v n1) = succeeded (against_empty_string v n2) := by
  cases h : pyEqEmptyStr v <;> simp [against_empty_string, h, succeeded]

theorem against_zero_name_inv (v : PyVal) (n1 n2 : String) :
    succeeded (against_zero v n1) = succeeded (against_zero v n2) := by
  cases h : pyEqZero v <;> simp [against_zero, h, succeeded]

theorem against_empty_collection_name_inv (v : PyVal) (n1 n2 : String) :
    succeeded (against_empty_collection v n1) = succeeded (against_empty_collection v n2) := by
  cases h : pyTruthy v <;> simp [against_empty_collection, h, succeeded]

theorem against_wrong_type_name_inv (v : PyVal) (T : PyType) (n1 n2 : String) :
    succeeded (against_wrong_type v T n1) = succeeded (against_wrong_type v T n2) := by
  cases h : isinstance v T <;> simp [against_wrong_type, h, succeeded]

theorem against_file_not_found_name_inv (fs : FileSystem) (v : PyVal) (n1 n2 : String) :
    succeeded (against_file_not_found fs v n1) = succeeded (against_file_not_found fs v n2) := by
  cases v <;>
    simp [against_file_not_found, isPathType, isinstance, os_path_exists, fspath, succeeded]

theorem against_directory_not_found_name_inv (fs : FileSystem) (v : PyVal) (n1 n2 : String) :
    succeeded (against_directory_not_found fs v n1) =
      succeeded (against_directory_not_found fs v n2) := by
  cases v <;>
    simp [against_directory_not_found, os_path_isdir, fspath, succeeded]

theorem against_not_iterable_name_inv (v : PyVal) (n1 n2 : String) :
    succeeded (against_not_iterable v n1) = succeeded (against_not_iterable v n2) := by
  cases v <;> simp [against_not_iterable, isIterable, isinstance, succeeded]


/-- C4: `against_wrong_type(v, T, name)` returns `v` unchanged when `v` is an
instance of `T`, and otherwise fails with TypeMismatch (`TypeError`) whose
message includes both the expected type name of `T` and the actual runtime
type name of `v`; in particular `against_wrong_type(5, str, "x")` fails with
a message naming both `str` and `int`, and `against_wrong_type("a", str,
"x")` succeeds. -/
theorem against_wrong_type_spec :
    (∀ (v : PyVal) (T : PyType) (nm : String), isinstance v T = true →
      against_wrong_type v T nm = .ok v) ∧
    (∀ (v : PyVal) (T : PyType) (nm : String), isinstance v T = false →
      ∃ m, against_wrong_type v T nm = .error (.typeError m) ∧
        strHasSub T.typename m = true ∧ strHasSub (typeName v) m = true) ∧
    against_wrong_type (.int 5) .strT "x" =
      .error (.typeError "Argument \x27x\x27 must be of type str. Got int.") ∧
    strHasSub "str" "Argument \x27x\x27 must be of type str. Got int." = true ∧
    strHasSub "int" "Argument \x27x\x27 must be of type str. Got int." = true ∧
    against_wrong_type (.str "a") .strT "x" = .ok (.str "a") := by
  refine ⟨?_, ?_, by rfl, by rfl, by rfl, by rfl⟩
  · intro v T nm h
    simp [against_wrong_type, h]
  · intro v T nm h
    refine ⟨"Argument \x27" ++ nm ++ "\x27 must be of type " ++ T.typename ++
      ". Got " ++ typeName v ++ ".", by simp [against_wrong_type, h], ?_, ?_⟩
    · unfold strHasSub
      simp only [String.data_append, List.append_assoc]
      exact chfind_append _ _ _ (chfind_append _ _ _ (chfind_append _ _ _
        (chfind_self_append _ _)))
    · unfold strHasSub
      simp only [String.data_append, List.append_assoc]
      exact chfind_append _ _ _ (chfind_append _ _ _ (chfind_append _ _ _
        (chfind_append _ _ _ (chfind_append _ _ _ (chfind_self_append _ _)))))

theorem against_wrong_type_spec_witness :
    isinstance (PyVal.str "a") PyType.strT = true ∧
    against_wrong_type (.str "a") .strT "x" = .ok (.str "a") :=
  ⟨rfl, against_wrong_type_spec.1 (.str "a") .strT "x" rfl⟩

/-- C5: `against_empty_collection(v, name)` fails with InvalidArgument
(`ValueError`) exactly when `v` is falsy (empty sequence/mapping/set,
numeric zero, or any value with no content), and otherwise returns `v`
unchanged; `[]` and `{}` fail and `[1]` succeeds. -/
theorem against_empty_collection_spec :
    (∀ (v : PyVal) (nm : String),
      (against_empty_collection v nm = .ok v ↔ pyTruthy v = true) ∧
      (pyTruthy v = false →
        errorKind (against_empty_collection v nm) = some "ValueError")) ∧
    errorKind (against_empty_collection (.list []) "c") = some "ValueError" ∧
    errorKind (against_empty_collection (.dict []) "c") = some "ValueError" ∧
    against_empty_collection (.list [.int 1]) "c" = .ok (.list [.int 1]) := by
  refine ⟨?_, by rfl, by rfl, by rfl⟩
  intro v nm
  cases ht : pyTruthy v with
  | true => simp [against_empty_collection, ht]
  | false => simp [against_empty_collection, ht, errorKind]

theorem against_empty_collection_spec_witness :
    pyTruthy (PyVal.int 0) = false ∧
    errorKind (against_empty_collection (.int 0) "c") = some "ValueError" :=
  ⟨rfl, (against_empty_collection_spec.1 (.int 0) "c").2 rfl⟩

/-- C6: `against_not_iterable(v, name)` fails with TypeMismatch
(`TypeError`) exactly when `v` does not support iteration or is a
text/byte sequence, and otherwise returns `v` unchanged; `[1,2]` succeeds
while `"abc"` and `5` fail. -/
theorem against_not_iterable_spec :
    (∀ (v : PyVal) (nm : String),
      (against_not_iterable v nm = .ok v ↔
        (isIterable v = true ∧ isinstance v .strT = false ∧
          isinstance v .bytesT = false)) ∧
      ((isIterable v = false ∨ isinstance v .strT = true ∨
          isinstance v .bytesT = true) →
        errorKind (against_not_iterable v nm) = some "TypeError")) ∧
    against_not_iterable (.list [.int 1, .int 2]) "x" =
      .ok (.list [.int 1, .int 2]) ∧
    errorKind (against_not_iterable (.str "abc") "x") = some "TypeError" ∧
    errorKind (against_not_iterable (.int 5) "x") = some "TypeError" := by
  refine ⟨?_, by rfl, by rfl, by rfl⟩
  intro v nm
  cases v <;> simp [against_not_iterable, isIterable, isinstance, errorKind]

theorem against_not_iterable_spec_witness :
    isIterable (PyVal.tuple []) = true ∧
    isinstance (PyVal.tuple []) PyType.strT = false ∧
    isinstance (PyVal.tuple []) PyType.bytesT = false ∧
    against_not_iterable (.tuple []) "x" = .ok (.tuple []) :=
  ⟨rfl, rfl, rfl,
    (against_not_iterable_spec.1 (.tuple []) "x").1.mpr ⟨rfl, rfl, rfl⟩⟩

/-- C7: for numeric `v`, `against_zero(v, name)` fails with InvalidArgument
(`ValueError`) exactly when `v` equals zero in any numeric representation
(`0` and `0.0` both fail), and otherwise returns `v` unchanged. -/
theorem against_zero_spec :
    (∀ (v : PyVal) (nm : String), isNumeric v = true →
      (against_zero v nm = .ok v ↔ pyEqZero v = false) ∧
      (pyEqZero v = true →
        errorKind (against_zero v nm) = some "ValueError")) ∧
    errorKind (against_zero (.int 0) "z") = some "ValueError" ∧
    errorKind (against_zero (.float 0) "z") = some "ValueError" ∧
    against_zero (.int 1) "z" = .ok (.int 1) := by
  refine ⟨?_, by rfl, by rfl, by rfl⟩
  intro v nm _
  cases hz : pyEqZero v with
  | true => simp [against_zero, hz, errorKind]
  | false => simp [against_zero, hz]

theorem against_zero_spec_witness :
    isNumeric (PyVal.int 1) = true ∧ pyEqZero (PyVal.int 1) = false ∧
    against_zero (.int 1) "z" = .ok (.int 1) :=
  ⟨rfl, rfl, ((against_zero_spec.1 (.int 1) "z" rfl).1).mpr rfl⟩

/-- C8: `against_empty_string(s, name)` fails with InvalidArgument
(`ValueError`) exactly when `s` is the exact empty string, and otherwise
returns `s` unchanged; a whitespace-only string such as `" "` succeeds. -/
theorem against_empty_string_spec :
    (∀ (s nm : String),
      (against_empty_string (.str s) nm = .ok (.str s) ↔ ¬s = "") ∧
      (s = "" →
        errorKind (against_empty_string (.str s) nm) = some "ValueError")) ∧
    errorKind (against_empty_string (.str "") "s") = some "ValueError" ∧
    against_empty_string (.str " ") "s" = .ok (.str " ") := by
  refine ⟨?_, by rfl, by rfl⟩
  intro s nm
  by_cases hs : s = ""
  · subst hs
    simp [against_empty_string, pyEqEmptyStr, errorKind]
  · simp [against_empty_string, pyEqEmptyStr, hs]

theorem against_empty_string_spec_witness :
    ¬(" " : String) = "" ∧
    against_empty_string (.str " ") "s" = .ok (.str " ") :=
  ⟨by decide, (against_empty_string_spec.1 " " "s").1.mpr (by decide)⟩

/-- C10: `against_empty_string` places no type constraint on its argument:
every non-`str` value passes and is returned unchanged, because only exact
equality with `""` triggers a failure. -/
theorem against_empty_string_nonstring_passes :
    ∀ (v : PyVal) (nm : String), isinstance v .strT = false →
      against_empty_string v nm = .ok v := by
  intro v nm h
  cases v <;> simp_all [against_empty_string, pyEqEmptyStr, isinstance]

theorem against_empty_string_nonstring_passes_witness :
    isinstance PyVal.none PyType.strT = false ∧
    against_empty_string PyVal.none "s" = .ok PyVal.none :=
  ⟨rfl, against_empty_string_nonstring_passes PyVal.none "s" rfl⟩

/-- C1 (amended): `against_file_not_found(path, name)` fails with
InvalidArgument (`ValueError`) when `path` is `None`, with TypeMismatch
(`TypeError`) when `path` is not a `str`/`bytes`/`os.PathLike` value, with
NotFound (`FileNotFoundError`) exactly when `os.path.exists` reports no
entry of any kind at the path, and otherwise returns `path` unchanged.  An
existing entry of any kind passes: the source tests `os.path.exists`, so a
directory is accepted (see `file_guard_accepts_directory`). -/
theorem against_file_not_found_behavior :
    (∀ (fs : FileSystem) (nm : String),
      errorKind (against_file_not_found fs .none nm) = some "ValueError") ∧
    (∀ (fs : FileSystem) (v : PyVal) (nm : String),
      ¬v = .none → isPathType v = false →
      errorKind (against_file_not_found fs v nm) = some "TypeError") ∧
    (∀ (fs : FileSystem) (v : PyVal) (nm : String) (p : String),
      fspath v = some p →
      ((fs p).isSome = true → against_file_not_found fs v nm = .ok v) ∧
      (fs p = Option.none →
        against_file_not_found fs v nm =
          .error (.fileNotFoundError
            ("File not found: \x27" ++ pyStr v ++ "\x27")))) := by
  refine ⟨fun fs nm => rfl, ?_, ?_⟩
  · intro fs v nm hne hpt
    cases v <;>
      simp_all [against_file_not_found, isPathType, isinstance, errorKind]
  · intro fs v nm p hp
    cases v <;> simp only [fspath] at hp <;>
      first
      | exact Option.noConfusion hp
      | (injection hp with hp
         subst hp
         refine ⟨fun h => ?_, fun h => ?_⟩ <;>
           simp [against_file_not_found, isPathType, isinstance,
             os_path_exists, fspath, pyStr, h])

theorem against_file_not_found_behavior_witness :
    fspath (PyVal.str "/tmp/afile") = some "/tmp/afile" ∧
    (demoFS "/tmp/afile").isSome = true ∧
    against_file_not_found demoFS (.str "/tmp/afile") "p" =
      .ok (.str "/tmp/afile") :=
  ⟨rfl, rfl,
    (against_file_not_found_behavior.2.2 demoFS (.str "/tmp/afile") "p"
      "/tmp/afile" rfl).1 rfl⟩

/-- C1 counterexample: a path that exists as a directory (not a regular
file) does not fail with NotFound - `against_file_not_found` accepts it and
returns it unchanged, because the source checks `os.path.exists`, which is
satisfied by any existing entry. -/
theorem file_guard_accepts_directory :
    demoFS "/tmp/adir" = some FSEntry.dir ∧
    against_file_not_found demoFS (.str "/tmp/adir") "p" =
      .ok (.str "/tmp/adir") :=
  ⟨rfl, rfl⟩

/-- C3 (amended): `against_directory_not_found(path, name)` performs no
`None` or type pre-check: for a path-like `path` it fails with NotFound
(`FileNotFoundError`) exactly when the path does not resolve to an existing
directory (so an existing regular file fails with NotFound) and otherwise
returns `path` unchanged; a `None` argument instead surfaces the underlying
`os.stat` `TypeError` (not the guard's InvalidArgument). -/
theorem against_directory_not_found_behavior :
    (∀ (fs : FileSystem) (v : PyVal) (nm : String) (p : String),
      fspath v = some p →
      (fs p = some FSEntry.dir →
        against_directory_not_found fs v nm = .ok v) ∧
      (¬fs p = some FSEntry.dir →
        against_directory_not_found fs v nm =
          .error (.fileNotFoundError
            ("Directory not found: \x27" ++ pyStr v ++ "\x27")))) ∧
    (∀ (fs : FileSystem) (nm : String),
      errorKind (against_directory_not_found fs .none nm) = some "TypeError") ∧
    demoFS "/tmp/afile" = some FSEntry.file ∧
    errorKind (against_directory_not_found demoFS (.str "/tmp/afile") "d") =
      some "FileNotFoundError" := by
  refine ⟨?_, fun fs nm => rfl, rfl, by rfl⟩
  intro fs v nm p hp
  cases v <;> simp only [fspath] at hp <;>
    first
    | exact Option.noConfusion hp
    | (injection hp with hp
       subst hp
       refine ⟨fun h => ?_, fun h => ?_⟩
       · simp [against_directory_not_found, os_path_isdir, fspath, h]
       · have hb := beq_eq_false_iff_ne.mpr h
         simp [against_directory_not_found, os_path_isdir, fspath, pyStr, hb])

theorem against_directory_not_found_behavior_witness :
    fspath (PyVal.str "/tmp/adir") = some "/tmp/adir" ∧
    demoFS "/tmp/adir" = some FSEntry.dir ∧
    against_directory_not_found demoFS (.str "/tmp/adir") "d" =
      .ok (.str "/tmp/adir") :=
  ⟨rfl, rfl,
    (against_directory_not_found_behavior.1 demoFS (.str "/tmp/adir") "d"
      "/tmp/adir" rfl).1 rfl⟩

/-- C3 counterexample: on `path = None` the guard does not fail with
InvalidArgument (`ValueError`) as claimed - the uncaught `os.stat`
`TypeError` surfaces instead. -/
theorem directory_guard_none_not_invalid_argument :
    errorKind (against_directory_not_found emptyFS PyVal.none "p") =
      some "TypeError" := rfl

/-- C2: the NotFound failures of `against_file_not_found` and
`against_directory_not_found` interpolate the offending path, not the
caller-supplied argument name: with name `"zz"` and a nonexistent path
`/nope`, both messages omit `"zz"` entirely (for the directory guard the
name parameter is never used at all, contradicting its docstring's
"Used in the error message"). -/
theorem not_found_message_lacks_argument_name :
    against_directory_not_found emptyFS (.str "/nope") "zz" =
      .error (.fileNotFoundError "Directory not found: \x27/nope\x27") ∧
    strHasSub "zz" "Directory not found: \x27/nope\x27" = false ∧
    against_file_not_found emptyFS (.str "/nope") "zz" =
      .error (.fileNotFoundError "File not found: \x27/nope\x27") ∧
    strHasSub "zz" "File not found: \x27/nope\x27" = false :=
  ⟨rfl, by rfl, rfl, by rfl⟩

/-- C9: every check returns exactly the value it was given whenever it
succeeds, and the `name` argument never affects whether a check succeeds
or fails - for each of the nine guards, success of the call is invariant
under changing the name. -/
theorem guards_identity_and_name_cosmetic :
    (∀ (v : PyVal) (nm : String) (r : PyVal),
      against_none v nm = .ok r → r = v) ∧
    (∀ (v : PyVal) (n1 n2 : String),
      succeeded (against_none v n1) = succeeded (against_none v n2)) ∧
    (∀ (v : PyVal) (nm : String) (r : PyVal),
      against_negative v nm = .ok r → r = v) ∧
    (∀ (v : PyVal) (n1 n2 : String),
      succeeded (against_negative v n1) = succeeded (against_negative v n2)) ∧
    (∀ (v : PyVal) (nm : String) (r : PyVal),
      against_empty_string v nm = .ok r → r = v) ∧
    (∀ (v : PyVal) (n1 n2 : String),
      succeeded (against_empty_string v n1) =
        succeeded (against_empty_string v n2)) ∧
    (∀ (v : PyVal) (nm : String) (r : PyVal),
      against_zero v nm = .ok r → r = v) ∧
    (∀ (v : PyVal) (n1 n2 : String),
      succeeded (against_zero v n1) = succeeded (against_zero v n2)) ∧
    (∀ (v : PyVal) (nm : String) (r : PyVal),
      against_empty_collection v nm = .ok r → r = v) ∧
    (∀ (v : PyVal) (n1 n2 : String),
      succeeded (against_empty_collection v n1) =
        succeeded (against_empty_collection v n2)) ∧
    (∀ (v : PyVal) (T : PyType) (nm : String) (r : PyVal),
      against_wrong_type v T nm = .ok r → r = v) ∧
    (∀ (v : PyVal) (T : PyType) (n1 n2 : String),
      succeeded (against_wrong_type v T n1) =
        succeeded (against_wrong_type v T n2)) ∧
    (∀ (fs : FileSystem) (v : PyVal) (nm : String) (r : PyVal),
      against_file_not_found fs v nm = .ok r → r = v) ∧
    (∀ (fs : FileSystem) (v : PyVal) (n1 n2 : String),
      succeeded (against_file_not_found fs v n1) =
        succeeded (against_file_not_found fs v n2)) ∧
    (∀ (fs : FileSystem) (v : PyVal) (nm : String) (r : PyVal),
      against_directory_not_found fs v nm = .ok r → r = v) ∧
    (∀ (fs : FileSystem) (v : PyVal) (n1 n2 : String),
      succeeded (against_directory_not_found fs v n1) =
        succeeded (against_directory_not_found fs v n2)) ∧
    (∀ (v : PyVal) (nm : String) (r : PyVal),
      against_not_iterable v nm = .ok r → r = v) ∧
    (∀ (v : PyVal) (n1 n2 : String),
      succeeded (against_not_iterable v n1) =
        succeeded (against_not_iterable v n2)) :=
  ⟨against_none_ok_id, against_none_name_inv,
   against_negative_ok_id, against_negative_name_inv,
   against_empty_string_ok_id, against_empty_string_name_inv,
   against_zero_ok_id, against_zero_name_inv,
   against_empty_collection_ok_id, against_empty_collection_name_inv,
   against_wrong_type_ok_id, against_wrong_type_name_inv,
   against_file_not_found_ok_id, against_file_not_found_name_inv,
   against_directory_not_found_ok_id, against_directory_not_found_name_inv,
   against_not_iterable_ok_id, against_not_iterable_name_inv⟩

theorem guards_identity_and_name_cosmetic_witness :
    against_none (PyVal.int 0) "x" = .ok (PyVal.int 0) ∧
    PyVal.int 0 = PyVal.int 0 :=
  ⟨rfl, guards_identity_and_name_cosmetic.1 (PyVal.int 0) "x" (PyVal.int 0) rfl⟩
